/-
Verification of the Quikchat session-orchestration engine.

The server side lives in backend/src/socket/socketHandler.js (shipped
concatenated after backend/src/services/PaymentService.js in this tree).
Every definition below is a shallow embedding of that file, translated
line by line:

  * `ServerState` holds the in-memory / Redis-backed mutable state the
    handler reads and writes: socket.io room membership, the Redis
    `user:{id}` hashes (`status`, `socketId`, `lastSeen`), the set of
    connected sockets, and the pending `setTimeout` callbacks.
  * External collaborators (ChatService, UserService, PaymentService,
    the storage layer) are modelled by an `Ext` record of call results:
    `.ok v` when the awaited call returns `v`, `.error e` when it throws.
  * Each socket event handler becomes a Lean function from the event
    payload, the `Ext` results, the sender's identity (`uid`, `sid`) and
    the current `ServerState` to an `HResult`: the new state, the list of
    observable `Effect`s (emissions, persistence calls) in program order,
    and whether an exception escaped the handler uncaught (the handler
    body had no try/catch around a throwing await).

Two identifiers the handler uses do not resolve, and the embedding
reflects this: `UserService` is never required in socketHandler.js
(only jwt, ChatService and PaymentService are, lines 335–337), so every
evaluation of `UserService.getUser` (lines 450, 518, 545) throws
`ReferenceError: UserService is not defined`; and the `PaymentService`
class (lines 1–333) defines no `createChatPayment`, `acceptPayment` or
`createExtensionPayment`, so those calls (lines 461, 494, 523) throw
`TypeError: PaymentService.<method> is not a function`. Handlers are
embedded with these throws at the exact program point where they occur.
-/
import Mathlib

namespace Quikchat

/-- A chat participant, from the `chat.participants` array:
`{ userId, role }`. -/
structure Participant where
  userId : String
  role : String
deriving DecidableEq, Repr

/-- The chat document returned by `ChatService.getChat` /
`ChatService.createPrivateChat`. `ctype` is the `type` field
(`'private_paid'` for paid chats); `totalDuration` is
`chat.paymentDetails.totalDuration` (minutes); `autoExtend` is
`chat.paymentDetails.autoExtend`. -/
structure Chat where
  id : String
  ctype : String
  participants : List Participant
  totalDuration : Nat
  autoExtend : Bool
deriving DecidableEq, Repr

/-- A persisted message, as returned by `ChatService.saveMessage`. -/
structure Message where
  id : String
  chatId : String
  senderId : String
  content : String
  mtype : String
deriving DecidableEq, Repr

/-- Emission payloads, restricted to the fields the handlers actually
send on reachable paths. -/
inductive EmitPayload where
  | messageP (m : Message)
  | errorP (text : String)
  | notifP (chatId content sender : String)
  | chatTimeEndedP (chatId : String)
  | userStatusP (userId status : String)
  | presenceP (userId status : String) (customStatus : Option String)
  | typingP (userId : String) (isTyping : Bool)
  | readP (messageId userId : String)
  | joinedP (userId : String)
  | signalP (userId : String)
  | connectedP (userId : String)
deriving DecidableEq, Repr

/-- Where an emission goes: `sender` is `socket.emit`, `room r` is
`io.to(r).emit`, `roomExceptSender r` is `socket.to(r).emit`, and
`broadcast` is `socket.broadcast.emit`. -/
inductive Target where
  | sender
  | room (r : String)
  | roomExceptSender (r : String)
  | broadcast
deriving DecidableEq, Repr

/-- Observable side effects of a handler, in program order. -/
inductive Effect where
  | emit (t : Target) (name : String) (p : EmitPayload)
  | persistMessage (m : Message)
  | storage (op : String) (arg : String)
deriving DecidableEq, Repr

/-- Association-list update (last write wins, as for a Redis hash
field or a JS Map key). -/
def setA (l : List (String × String)) (k v : String) : List (String × String) :=
  (k, v) :: l.filter (fun p => p.1 ≠ k)

/-- Association-list read. -/
def getA (l : List (String × String)) (k : String) : Option String :=
  (l.find? (fun p => p.1 = k)).map (·.2)

/-- The orchestrator's mutable state. `rooms` maps a socket.io room
name to its member socket ids; `redisStatus`, `redisSocketId`,
`redisLastSeen` model the `user:{id}` Redis hashes; `connected` is the
set of live sockets; `scheduledTimers` is the list of pending
`setTimeout` callbacks `(chatId, delayMs)` created by
`startChatTimer`. There is no field for the `chatTimers` handle map:
the identifier `chatTimers` is never declared anywhere in the source,
so no registry of cancellable handles exists. -/
structure ServerState where
  rooms : List (String × List String)
  redisStatus : List (String × String)
  redisSocketId : List (String × String)
  redisLastSeen : List (String × String)
  connected : List String
  scheduledTimers : List (String × Nat)
deriving DecidableEq, Repr

/-- Members of a room in a room table (empty when the room does not
exist; with duplicate entries the first wins, matching a JS Map built
by insertion). -/
def roomsMembers (l : List (String × List String)) (r : String) : List String :=
  ((l.find? (fun p => p.1 = r)).map (·.2)).getD []

/-- Members of a room (empty when the room does not exist). -/
def ServerState.members (st : ServerState) (r : String) : List String :=
  roomsMembers st.rooms r

/-- `socket.join(r)`: add `sid` to room `r`, creating it if needed. -/
def joinRoom (st : ServerState) (r sid : String) : ServerState :=
  { st with rooms :=
      (r, (st.members r).filter (· ≠ sid) ++ [sid]) ::
        st.rooms.filter (fun p => p.1 ≠ r) }

/-- `socket.leave(r)`: remove `sid` from room `r`. -/
def leaveRoom (st : ServerState) (r sid : String) : ServerState :=
  { st with rooms :=
      st.rooms.map (fun p => if p.1 = r then (p.1, p.2.filter (· ≠ sid)) else p) }

/-- Results of the awaited `ChatService` calls a handler may make:
`.ok` when the call resolves, `.error e` when it rejects with message
`e`. Only ChatService calls appear here: `UserService` is never
required (every `UserService.getUser` throws `ReferenceError` before
producing a result), and the `PaymentService` methods the handler
invokes (`createChatPayment`, `acceptPayment`,
`createExtensionPayment`) do not exist on the class, so those calls
throw `TypeError` and have no result to model. -/
structure Ext where
  getChat : Except String Chat
  checkChatTimeRemaining : Except String Bool
  saveMessage : Except String String
  markAsRead : Except String Unit
  updateUserPresence : Except String Unit
  endChat : Except String Unit
deriving Repr

/-- A handler's outcome: the new state, the effects in program order,
and whether an exception escaped the handler uncaught. -/
structure HResult where
  state : ServerState
  effects : List Effect
  escaped : Bool
deriving DecidableEq, Repr

/-- The `'send-message'` handler (socketHandler.js lines 383–425).
The whole body is wrapped in try/catch emitting `'error'` to the
sender. It fetches the chat, and — only when `chat.type ===
'private_paid'` — consults `checkChatTimeRemaining`; on no time it
emits `'chat-error'` with message `'Chat time expired'` to the sender
and returns before any persistence. Otherwise it saves the message,
emits `'new-message'` to the `chat:{chatId}` room, updates the last
message, and notifies each other participant's `user:{id}` room.
No membership check of any kind is performed. -/
def handleSendMessage (ext : Ext) (uid chatId content mtype : String)
    (st : ServerState) : HResult :=
  match ext.getChat with
  | .error e => ⟨st, [.emit .sender "error" (.errorP e)], false⟩
  | .ok chat =>
    let proceed : HResult :=
      match ext.saveMessage with
      | .error e => ⟨st, [.emit .sender "error" (.errorP e)], false⟩
      | .ok msgId =>
        let message : Message := ⟨msgId, chatId, uid, content, mtype⟩
        let notifs := (chat.participants.filter (fun p => p.userId ≠ uid)).map
          (fun p => Effect.emit (.room ("user:" ++ p.userId)) "message-notification"
            (.notifP chatId message.content uid))
        ⟨st, Effect.persistMessage message ::
             Effect.emit (.room ("chat:" ++ chatId)) "new-message" (.messageP message) ::
             Effect.storage "updateLastMessage" chatId :: notifs, false⟩
    if chat.ctype = "private_paid" then
      match ext.checkChatTimeRemaining with
      | .error e => ⟨st, [.emit .sender "error" (.errorP e)], false⟩
      | .ok hasTime =>
        if hasTime then proceed
        else ⟨st, [.emit .sender "chat-error" (.errorP "Chat time expired")], false⟩
    else proceed

/-- Connection setup: the `io.use` auth middleware (lines 341–361)
writes `socketId` and `status = 'online'` into the `user:{uid}` Redis
hash (last writer wins — a reconnect replaces the canonical socket id),
then the `'connection'` handler (lines 363–374) joins the socket to its
own id room (socket.io default) and to `user:{uid}`, emits
`'connected'` to the socket and broadcasts `'user-status' online`. -/
def onConnect (uid sid : String) (st : ServerState) : HResult :=
  let st1 := { st with
    redisSocketId := setA st.redisSocketId uid sid
    redisStatus := setA st.redisStatus uid "online"
    connected := st.connected.filter (· ≠ sid) ++ [sid] }
  let st2 := joinRoom (joinRoom st1 sid sid) ("user:" ++ uid) sid
  ⟨st2, [.emit .sender "connected" (.connectedP uid),
         .emit .broadcast "user-status" (.userStatusP uid "online")], false⟩

/-- The `'join-chat'` handler (lines 377–381): joins `chat:{chatId}`,
awaits `ChatService.updateUserPresence` (no try/catch — a rejection
escapes after the join already happened), then emits `'user-joined'`
to the rest of the room. -/
def handleJoinChat (ext : Ext) (uid sid chatId : String) (st : ServerState) : HResult :=
  let st1 := joinRoom st ("chat:" ++ chatId) sid
  match ext.updateUserPresence with
  | .error _ => ⟨st1, [], true⟩
  | .ok _ => ⟨st1, [.storage "updateUserPresence" chatId,
      .emit (.roomExceptSender ("chat:" ++ chatId)) "user-joined" (.joinedP uid)], false⟩

/-- The `'typing'` handler (lines 427–433): relays a typing indicator
to the rest of the chat room; purely synchronous, cannot fail. -/
def handleTyping (uid chatId : String) (isTyping : Bool) (st : ServerState) : HResult :=
  ⟨st, [.emit (.roomExceptSender ("chat:" ++ chatId)) "typing-indicator"
      (.typingP uid isTyping)], false⟩

/-- The `'read-receipt'` handler (lines 435–442): awaits
`ChatService.markAsRead` with NO try/catch — a storage rejection
escapes the handler uncaught and no error event reaches anyone — then
emits `'message-read'` to the rest of the room. -/
def handleReadReceipt (ext : Ext) (uid messageId chatId : String)
    (st : ServerState) : HResult :=
  match ext.markAsRead with
  | .error _ => ⟨st, [], true⟩
  | .ok _ => ⟨st, [.storage "markAsRead" messageId,
      .emit (.roomExceptSender ("chat:" ++ chatId)) "message-read"
        (.readP messageId uid)], false⟩

/-- The `'request-private-chat'` handler (lines 445–487), wrapped in
try/catch. Its first statement after destructuring the payload is
`await UserService.getUser(earnerId)` (line 450) — but `UserService`
is never required in the module, so resolving the identifier throws
`ReferenceError: UserService is not defined` straight into the catch,
which emits the message as an `'error'` event to the requester. The
availability check, cost computation, `createChatPayment` call (a
method that does not exist either) and the `'payment-request'` /
`'chat-request'` emissions further down are unreachable. -/
def handleRequestPrivateChat (st : ServerState) : HResult :=
  ⟨st, [.emit .sender "error" (.errorP "UserService is not defined")], false⟩

/-- `startChatTimer` (lines 628–650). `setTimeout` registers the expiry
callback with delay `duration * 60 * 1000` ms — this succeeds and the
callback will fire regardless of what happens next. The very next
statement, `chatTimers.set(chatId, timer)`, throws a `ReferenceError`:
the identifier `chatTimers` is not declared anywhere in the module (or
any enclosing scope), so the timer handle is never stored and the
function always throws after scheduling. -/
def startChatTimer (chatId : String) (duration : Nat)
    (st : ServerState) : ServerState × Except String Unit :=
  let st1 := { st with
    scheduledTimers := st.scheduledTimers ++ [(chatId, duration * 60 * 1000)] }
  (st1, .error "chatTimers is not defined")

/-- The `'accept-chat-request'` handler (lines 489–510), wrapped in
try/catch. Its first statement is
`await PaymentService.acceptPayment(requestId)` (line 494) — but the
`PaymentService` class exports no `acceptPayment` method, so the call
throws `TypeError: PaymentService.acceptPayment is not a function`
into the catch, which emits the message as an `'error'` event to the
accepting socket. `ChatService.createPrivateChat`, the
`'chat-started'` emission and the `startChatTimer` call (line 506) are
never reached: no chat is created and no expiry timer is ever
scheduled. -/
def handleAcceptChatRequest (st : ServerState) : HResult :=
  ⟨st, [.emit .sender "error"
      (.errorP "PaymentService.acceptPayment is not a function")], false⟩

/-- The `'extend-chat'` handler (lines 512–538), wrapped in try/catch.
It awaits `ChatService.getChat` (line 517, a real collaborator call
that may fail); the next statement (line 518) evaluates
`UserService.getUser(...)` — the member expression is resolved before
its argument, and `UserService` is never required in the module, so it
throws `ReferenceError: UserService is not defined` into the catch,
which emits the message as an `'error'` event to the requester. The
cost computation, the `createExtensionPayment` call (a method that
does not exist either) and the `'extension-payment-request'` emission
are unreachable: no extension is ever applied, no timer touched, and
no expired-session check of any kind exists. -/
def handleExtendChat (ext : Ext) (st : ServerState) : HResult :=
  match ext.getChat with
  | .error e => ⟨st, [.emit .sender "error" (.errorP e)], false⟩
  | .ok _ =>
    ⟨st, [.emit .sender "error" (.errorP "UserService is not defined")], false⟩

/-- The `'call-user'` handler (lines 541–562), NO try/catch. Its first
statement after destructuring is `await UserService.getUser(userId)`
(line 545) — `UserService` is never required in the module, so the
handler throws `ReferenceError: UserService is not defined` and, with
no catch, the exception escapes uncaught. Nothing is emitted to
anyone: the service check, the `'incoming-call'` invitation and the
`'call-initiated'` acknowledgment further down are dead code, and no
call-session object or state is created anywhere. -/
def handleCallUser (st : ServerState) : HResult :=
  ⟨st, [], true⟩

/-- The `'accept-call'` handler (lines 564–567). -/
def handleAcceptCall (callId : String) (st : ServerState) : HResult :=
  ⟨st, [.emit (.room callId) "call-accepted" (.signalP callId)], false⟩

/-- The `'reject-call'` handler (lines 569–572). -/
def handleRejectCall (callId : String) (st : ServerState) : HResult :=
  ⟨st, [.emit (.room callId) "call-rejected" (.signalP callId)], false⟩

/-- The `'join-call'` handler (lines 574–576): joins the call room. -/
def handleJoinCall (sid callId : String) (st : ServerState) : HResult :=
  ⟨joinRoom st callId sid, [], false⟩

/-- The `'call-signal'` handler (lines 578–584): relays the opaque
signal to the rest of the call room. -/
def handleCallSignal (uid callId : String) (st : ServerState) : HResult :=
  ⟨st, [.emit (.roomExceptSender callId) "call-signal" (.signalP uid)], false⟩

/-- The `'end-call'` handler (lines 586–588). -/
def handleEndCall (callId : String) (st : ServerState) : HResult :=
  ⟨st, [.emit (.room callId) "call-ended" (.signalP callId)], false⟩

/-- The `'update-presence'` handler (lines 591–603): writes the status
(and optional custom status) to the Redis hash and broadcasts. -/
def handleUpdatePresence (uid status : String) (customStatus : Option String)
    (st : ServerState) : HResult :=
  let st1 := { st with redisStatus := setA st.redisStatus uid status }
  ⟨st1, [.emit .broadcast "presence-update" (.presenceP uid status customStatus)], false⟩

/-- The `'disconnect'` handler (lines 606–624). Unconditionally — with
no comparison of this socket against the canonical `socketId` stored
for the identity — writes `status = 'offline'` and `lastSeen` into the
`user:{uid}` hash, broadcasts `'user-status' offline`, then iterates
`socket.rooms` and leaves every room other than the socket's own id
room. The socket itself is then destroyed (removed from `connected`
and from its own id room). It emits nothing call-related and consults
no call or billing state. -/
def handleDisconnect (uid sid : String) (now : String) (st : ServerState) : HResult :=
  let st1 := { st with
    redisStatus := setA st.redisStatus uid "offline"
    redisLastSeen := setA st.redisLastSeen uid now }
  let socketRooms := (st1.rooms.filter (fun p => sid ∈ p.2)).map (·.1)
  let st2 := socketRooms.foldl
    (fun acc r => if r = sid then acc else leaveRoom acc r sid) st1
  let st3 := { leaveRoom st2 sid sid with connected := st2.connected.filter (· ≠ sid) }
  ⟨st3, [.emit .broadcast "user-status" (.userStatusP uid "offline")], false⟩

/-- Remove the first pending timer for `chatId` (a `setTimeout`
callback runs at most once). -/
def removeFirstTimer : List (String × Nat) → String → List (String × Nat)
  | [], _ => []
  | t :: ts, c => if t.1 = c then ts else t :: removeFirstTimer ts c

/-- The expiry callback scheduled by `startChatTimer` (lines 629–645),
firing `duration * 60 * 1000` ms after scheduling. Its body is wrapped
in try/catch (console.error only): it awaits `ChatService.endChat`,
emits `'chat-time-ended'` to the chat room, then re-fetches the chat
for the `autoExtend` check, whose branch body is only a comment.
Dead code in practice: `startChatTimer` is only called from the
accept-chat-request handler, which always throws before reaching it,
so this callback is never scheduled. -/
def fireChatTimer (ext : Ext) (chatId : String) (st : ServerState) : HResult :=
  let st1 := { st with scheduledTimers := removeFirstTimer st.scheduledTimers chatId }
  match ext.endChat with
  | .error _ => ⟨st1, [], false⟩
  | .ok _ =>
    let eff := [Effect.storage "endChat" chatId,
      Effect.emit (.room ("chat:" ++ chatId)) "chat-time-ended" (.chatTimeEndedP chatId)]
    match ext.getChat with
    | .error _ => ⟨st1, eff, false⟩
    | .ok _ => ⟨st1, eff, false⟩

/-- The exact list of event names for which `socket.on(...)` is called
inside the `'connection'` handler (lines 377–624). `'leave-chat'` is
not among them: the server registers no handler for it. -/
def registeredEvents : List String :=
  ["join-chat", "send-message", "typing", "read-receipt",
   "request-private-chat", "accept-chat-request", "extend-chat",
   "call-user", "accept-call", "reject-call", "join-call",
   "call-signal", "end-call", "update-presence", "disconnect"]

/-- The event the ChatInterface cleanup effect emits when a chat view
closes (frontend ChatInterface.jsx lines 53–57:
`socket.emit('leave-chat', chatId)`). -/
def chatInterfaceCleanupEvent : String := "leave-chat"

/-- An inbound socket event with its payload, one constructor per
registered handler; `other name` is any event name the connection
handler never subscribed to (socket.io silently drops it). -/
inductive InboundEvent where
  | joinChat (chatId : String)
  | sendMessage (chatId content mtype : String)
  | typing (chatId : String) (isTyping : Bool)
  | readReceipt (messageId chatId : String)
  | requestPrivateChat (earnerId : String) (duration : Nat)
  | acceptChatRequest (requestId : String)
  | extendChat (chatId : String) (additionalMinutes : Nat)
  | callUser (calleeId ctype : String) (isVideo : Bool)
  | acceptCall (callId : String)
  | rejectCall (callId : String)
  | joinCall (callId : String)
  | callSignal (callId : String)
  | endCall (callId : String)
  | updatePresence (status : String) (customStatus : Option String)
  | disconnect
  | other (name : String)
deriving DecidableEq, Repr

/-- The socket.io event name carried by an `InboundEvent`. -/
def InboundEvent.name : InboundEvent → String
  | .joinChat _ => "join-chat"
  | .sendMessage _ _ _ => "send-message"
  | .typing _ _ => "typing"
  | .readReceipt _ _ => "read-receipt"
  | .requestPrivateChat _ _ => "request-private-chat"
  | .acceptChatRequest _ => "accept-chat-request"
  | .extendChat _ _ => "extend-chat"
  | .callUser _ _ _ => "call-user"
  | .acceptCall _ => "accept-call"
  | .rejectCall _ => "reject-call"
  | .joinCall _ => "join-call"
  | .callSignal _ => "call-signal"
  | .endCall _ => "end-call"
  | .updatePresence _ _ => "update-presence"
  | .disconnect => "disconnect"
  | .other n => n

/-- Dispatch of an inbound event from socket `sid` owned by identity
`uid` (with `now` standing for the wall clock where the handler reads
it), routing to the handler registered for the event's name. An event
with no registered handler changes nothing and emits nothing. -/
def dispatch (ev : InboundEvent) (ext : Ext) (uid sid : String) (now : Nat)
    (st : ServerState) : HResult :=
  match ev with
  | .joinChat chatId => handleJoinChat ext uid sid chatId st
  | .sendMessage chatId content mtype =>
      handleSendMessage ext uid chatId content mtype st
  | .typing chatId isTyping => handleTyping uid chatId isTyping st
  | .readReceipt messageId chatId => handleReadReceipt ext uid messageId chatId st
  | .requestPrivateChat _ _ => handleRequestPrivateChat st
  | .acceptChatRequest _ => handleAcceptChatRequest st
  | .extendChat _ _ => handleExtendChat ext st
  | .callUser _ _ _ => handleCallUser st
  | .acceptCall callId => handleAcceptCall callId st
  | .rejectCall callId => handleRejectCall callId st
  | .joinCall callId => handleJoinCall sid callId st
  | .callSignal callId => handleCallSignal uid callId st
  | .endCall callId => handleEndCall callId st
  | .updatePresence status customStatus => handleUpdatePresence uid status customStatus st
  | .disconnect => handleDisconnect uid sid (toString now) st
  | .other _ => ⟨st, [], false⟩

/-- The concrete sockets a single emission reaches, resolving room
targets against the current membership state (socket.io delivers a
room emit to the room's current members; `socket.to` and
`socket.broadcast` exclude the sender). -/
def emitRecipients (st : ServerState) (senderSid : String) : Target → List String
  | .sender => [senderSid]
  | .room r => st.members r
  | .roomExceptSender r => (st.members r).filter (· ≠ senderSid)
  | .broadcast => st.connected.filter (· ≠ senderSid)

/-- The emissions of an effect list carrying a given event name. -/
def emitsNamed (effs : List Effect) (n : String) : List Effect :=
  effs.filter (fun e => match e with
    | .emit _ name _ => name = n
    | _ => false)

/-- The messages persisted by an effect list. -/
def persisted (effs : List Effect) : List Message :=
  effs.filterMap (fun e => match e with
    | .persistMessage m => some m
    | _ => none)

/-- Whether an effect list fans anything out beyond the sender's own
socket: an emission to a room, to a room minus the sender, or a
broadcast. -/
def fansOut (effs : List Effect) : Bool :=
  effs.any (fun e => match e with
    | .emit .sender _ _ => false
    | .emit _ _ _ => true
    | _ => false)

/-- A sample collaborator environment in which every external call
succeeds, used to evaluate the handlers at concrete inputs. -/
def extOk : Ext :=
  { getChat := .ok ⟨"c1", "free", [⟨"u1", "user"⟩, ⟨"u2", "earner"⟩], 10, false⟩
    checkChatTimeRemaining := .ok true
    saveMessage := .ok "m1"
    markAsRead := .ok ()
    updateUserPresence := .ok ()
    endChat := .ok () }

/-- The empty orchestrator state (fresh process, nobody connected). -/
def emptyState : ServerState := ⟨[], [], [], [], [], []⟩

end Quikchat

namespace Quikchat

/-- C1: a send-message into a paid chat whose remaining time is zero is
rejected before persistence: the handler consults the billing check
first, emits the time-expired error (`'chat-error'` with message
`'Chat time expired'`, the spec's `TimeExpiredError`) to the sending
connection only, persists nothing, fans nothing out, and leaves the
state unchanged; moreover anything ever persisted by this handler for
a paid chat required the billing check to have returned true. -/
theorem sendMessage_paidExpired_rejected (ext : Ext) (uid chatId content mtype : String)
    (st : ServerState) (chat : Chat)
    (hchat : ext.getChat = .ok chat) (hpaid : chat.ctype = "private_paid") :
    (ext.checkChatTimeRemaining = .ok false →
      handleSendMessage ext uid chatId content mtype st =
        ⟨st, [.emit .sender "chat-error" (.errorP "Chat time expired")], false⟩)
    ∧ (∀ m ∈ persisted (handleSendMessage ext uid chatId content mtype st).effects,
        ext.checkChatTimeRemaining = .ok true) := by
  constructor
  · intro htime
    simp [handleSendMessage, hchat, hpaid, htime]
  · intro m hm
    unfold handleSendMessage at hm
    rw [hchat] at hm
    simp only [hpaid, if_pos rfl] at hm
    match hcheck : ext.checkChatTimeRemaining with
    | .error e => rw [hcheck] at hm; simp [persisted] at hm
    | .ok true => rfl
    | .ok false => rw [hcheck] at hm; simp [persisted] at hm

/-- Witness for `sendMessage_paidExpired_rejected` at a concrete
expired paid chat. -/
theorem sendMessage_paidExpired_rejected_witness :
    (handleSendMessage
        { extOk with
            getChat := .ok ⟨"c9", "private_paid", [⟨"u1", "user"⟩, ⟨"u2", "earner"⟩], 5, false⟩
            checkChatTimeRemaining := .ok false }
        "u1" "c9" "hi" "text" emptyState =
      ⟨emptyState, [.emit .sender "chat-error" (.errorP "Chat time expired")], false⟩) := by
  exact (sendMessage_paidExpired_rejected _ "u1" "c9" "hi" "text" emptyState
    ⟨"c9", "private_paid", [⟨"u1", "user"⟩, ⟨"u2", "earner"⟩], 5, false⟩
    rfl rfl).1 rfl

/-- C7 counterexample: identity `u9` (socket `s9`) is not a member of
room `chat:c1` (the room holds only `s2`) and is not even a chat
participant, yet its send-message is persisted and fanned out to the
room, and no error of any kind — in particular no `NotAMemberError` —
is emitted: the handler performs no membership validation at all. -/
theorem sendMessage_nonmember_cex :
    let st : ServerState := ⟨[("chat:c1", ["s2"])], [], [], [], ["s2"], []⟩
    let chat : Chat := ⟨"c1", "free", [⟨"u1", "user"⟩, ⟨"u2", "earner"⟩], 10, false⟩
    let r := handleSendMessage { extOk with getChat := .ok chat }
      "u9" "c1" "hello" "text" st
    ("s9" ∉ st.members "chat:c1")
    ∧ ("u9" ∉ chat.participants.map (fun p => p.userId))
    ∧ persisted r.effects = [⟨"m1", "c1", "u9", "hello", "text"⟩]
    ∧ fansOut r.effects = true
    ∧ emitsNamed r.effects "error" = []
    ∧ emitsNamed r.effects "chat-error" = [] := by
  refine ⟨?_, ?_, ?_, ?_, ?_, ?_⟩ <;> decide

/-- C7 amended: the send-message handler performs no membership
validation whatsoever — its effects are identical for any two
membership states (a non-member sender is treated exactly like a
member), and it never changes the membership state. -/
theorem sendMessage_ignores_membership (ext : Ext) (uid chatId content mtype : String)
    (st st' : ServerState) :
    (handleSendMessage ext uid chatId content mtype st).effects =
      (handleSendMessage ext uid chatId content mtype st').effects
    ∧ (handleSendMessage ext uid chatId content mtype st).state = st
    ∧ (handleSendMessage ext uid chatId content mtype st).escaped = false := by
  unfold handleSendMessage
  rcases ext.getChat with e | chat
  · exact ⟨rfl, rfl, rfl⟩
  · dsimp only
    rcases hsave : ext.saveMessage with e | msgId <;>
      rcases hcheck : ext.checkChatTimeRemaining with e' | hasTime <;>
        by_cases hp : chat.ctype = "private_paid" <;>
          simp [hsave, hcheck, hp] <;> cases hasTime <;> simp

/-- C2 counterexample: with a pending 120-minute expiry timer for room
`c1`, an extend-chat for one authorized minute arriving strictly
before the deadline leaves the pending timer exactly as it was — the
deadline is NOT moved to the old deadline plus the authorized amount,
no remaining-seconds counter is increased, and the requester instead
receives the caught `ReferenceError` as an `'error'` event
(`UserService` is not defined). With the timer already fired (session
expired, no pending timer), the same extend-chat fails with exactly
the same error — not with `SessionExpiredError`. -/
theorem extendChat_claim_cex :
    let stActive : ServerState := ⟨[], [], [], [], [], [("c1", 7200000)]⟩
    let r := dispatch (.extendChat "c1" 1) extOk "u1" "s1" 0 stActive
    let stExpired : ServerState := ⟨[], [], [], [], [], []⟩
    let r2 := dispatch (.extendChat "c1" 1) extOk "u1" "s1" 0 stExpired
    (r.state = stActive
      ∧ r.state.scheduledTimers = [("c1", 7200000)]
      ∧ r.state.scheduledTimers ≠ [("c1", 7200000 + 1 * 60 * 1000)]
      ∧ r.effects = [.emit .sender "error" (.errorP "UserService is not defined")])
    ∧ (r2.state = stExpired
      ∧ r2.effects = [.emit .sender "error" (.errorP "UserService is not defined")]
      ∧ r2.escaped = false) := by
  refine ⟨⟨?_, ?_, ?_, ?_⟩, ⟨?_, ?_, ?_⟩⟩ <;> decide

/-- C2 amended: the extend-chat handler never applies an extension.
Once the chat lookup succeeds it throws `ReferenceError: UserService
is not defined` (resolved before any cost or payment logic), which its
catch emits as an `'error'` event to the requester; the server state —
pending timers and all — is left untouched in every case, and an
extend arriving after expiry fails with the same caught error, never
with `SessionExpiredError`. -/
theorem extendChat_always_fails (ext : Ext) (chatId : String)
    (m : Nat) (uid sid : String) (now : Nat) (st : ServerState)
    (chat : Chat) (hchat : ext.getChat = .ok chat) :
    dispatch (.extendChat chatId m) ext uid sid now st =
      ⟨st, [.emit .sender "error" (.errorP "UserService is not defined")], false⟩
    ∧ (∀ ext2 : Ext, (dispatch (.extendChat chatId m) ext2 uid sid now st).state = st) := by
  constructor
  · simp [dispatch, handleExtendChat, hchat]
  · intro ext2
    unfold dispatch handleExtendChat
    rcases ext2.getChat with e | c <;> rfl

/-- Witness for `extendChat_always_fails` at a concrete input with a
pending timer. -/
theorem extendChat_always_fails_witness :
    dispatch (.extendChat "c1" 1) extOk "u1" "s1" 0
        ⟨[], [], [], [], [], [("c1", 7200000)]⟩ =
      ⟨⟨[], [], [], [], [], [("c1", 7200000)]⟩,
        [.emit .sender "error" (.errorP "UserService is not defined")], false⟩ :=
  (extendChat_always_fails extOk "c1" 1 "u1" "s1" 0
    ⟨[], [], [], [], [], [("c1", 7200000)]⟩
    ⟨"c1", "free", [⟨"u1", "user"⟩, ⟨"u2", "earner"⟩], 10, false⟩ rfl).1

/-- C4 counterexample: identity `X` connects on socket `A`, then
reconnects on socket `B`, so `B` is the canonical connection and `X`
is online. A stale disconnect of the old socket `A` (whose id differs
from the registered canonical connection) nevertheless flips `X`'s
presence to offline: the disconnect handler never compares the
disconnecting socket against the stored canonical socket id. -/
theorem stale_disconnect_sets_offline_cex :
    let st1 := (onConnect "X" "A" emptyState).state
    let st2 := (onConnect "X" "B" st1).state
    let r := dispatch .disconnect extOk "X" "A" 99 st2
    getA st2.redisSocketId "X" = some "B"
    ∧ getA st2.redisStatus "X" = some "online"
    ∧ ("A" : String) ≠ "B"
    ∧ getA r.state.redisStatus "X" = some "offline"
    ∧ emitsNamed r.effects "user-status" =
        [.emit .broadcast "user-status" (.userStatusP "X" "offline")] := by
  refine ⟨?_, ?_, ?_, ?_, ?_⟩ <;> decide

/-- Helper: the disconnect handler's room-leaving loop only edits the
`rooms` component: every other field of the state survives it. -/
theorem foldlLeave_eq (sid : String) (names : List String) (s : ServerState) :
    ∃ rs, names.foldl (fun acc r => if r = sid then acc else leaveRoom acc r sid) s =
      { s with rooms := rs } := by
  induction names generalizing s with
  | nil => exact ⟨s.rooms, rfl⟩
  | cons n ns ih =>
    simp only [List.foldl_cons]
    by_cases h : n = sid
    · simpa [h] using ih s
    · obtain ⟨rs, hrs⟩ := ih (leaveRoom s n sid)
      refine ⟨rs, ?_⟩
      rw [if_neg h, hrs]
      rfl

/-- Helper: reading back the key just written to a Redis-hash model. -/
theorem getA_setA_same (l : List (String × String)) (k v : String) :
    getA (setA l k v) k = some v := by
  simp [getA, setA, List.find?]

/-- C4 amended: a disconnect unconditionally sets the identity's
presence status to offline (and its last-seen timestamp), whether or
not the disconnecting socket is the currently registered canonical
connection. -/
theorem disconnect_always_sets_offline (ext : Ext) (uid sid : String) (now : Nat)
    (st : ServerState) :
    getA (dispatch .disconnect ext uid sid now st).state.redisStatus uid = some "offline"
    ∧ getA (dispatch .disconnect ext uid sid now st).state.redisLastSeen uid =
        some (toString now) := by
  simp only [dispatch, handleDisconnect]
  obtain ⟨rs, hrs⟩ := foldlLeave_eq sid
    ((({ st with
          redisStatus := setA st.redisStatus uid "offline"
          redisLastSeen := setA st.redisLastSeen uid (toString now) } :
        ServerState).rooms.filter (fun p => sid ∈ p.2)).map (·.1))
    { st with
        redisStatus := setA st.redisStatus uid "offline"
        redisLastSeen := setA st.redisLastSeen uid (toString now) }
  rw [hrs]
  exact ⟨by simp [leaveRoom, getA_setA_same], by simp [leaveRoom, getA_setA_same]⟩

/-- C5 counterexample: identities `X` (socket `A`) and `Y` (socket `B`)
have both joined the signaling room of call `call_1` (a ringing or
active call in progress). When `X`'s connection drops, the disconnect
handler emits only the offline presence broadcast: no `'call-ended'`
(or any call event) is sent, so the other party is never notified and
no call teardown of any kind is triggered. -/
theorem disconnect_no_call_teardown_cex :
    let st1 := (onConnect "X" "A" emptyState).state
    let st2 := (onConnect "Y" "B" st1).state
    let st3 := (dispatch (.joinCall "call_1") extOk "X" "A" 0 st2).state
    let st4 := (dispatch (.joinCall "call_1") extOk "Y" "B" 0 st3).state
    let r := dispatch .disconnect extOk "X" "A" 9 st4
    st4.members "call_1" = ["A", "B"]
    ∧ r.effects = [.emit .broadcast "user-status" (.userStatusP "X" "offline")]
    ∧ emitsNamed r.effects "call-ended" = [] := by
  refine ⟨?_, ?_, ?_⟩ <;> decide

/-- Helper: removing `s` from room `r0`'s entries never adds members,
and leaves `s` in no entry named `r0`. -/
theorem roomsMembers_leave (l : List (String × List String)) (r0 s r : String)
    (h : s ∈ roomsMembers
      (l.map (fun p => if p.1 = r0 then (p.1, p.2.filter (· ≠ s)) else p)) r) :
    s ∈ roomsMembers l r ∧ r ≠ r0 := by
  induction l with
  | nil => simp [roomsMembers] at h
  | cons p ps ih =>
    by_cases hr0 : p.1 = r0
    · by_cases hp : p.1 = r
      · exfalso
        rw [List.map_cons, if_pos hr0, roomsMembers,
          List.find?_cons_of_pos _ (by simpa using hp)] at h
        simp at h
      · rw [List.map_cons, if_pos hr0, roomsMembers,
          List.find?_cons_of_neg _ (by simpa using hp)] at h
        obtain ⟨h1, h2⟩ := ih h
        refine ⟨?_, h2⟩
        rw [roomsMembers, List.find?_cons_of_neg _ (by simpa using hp)]
        exact h1
    · by_cases hp : p.1 = r
      · rw [List.map_cons, if_neg hr0, roomsMembers,
          List.find?_cons_of_pos _ (by simpa using hp)] at h
        refine ⟨?_, fun hrr => hr0 (hrr ▸ hp)⟩
        rw [roomsMembers, List.find?_cons_of_pos _ (by simpa using hp)]
        simpa using h
      · rw [List.map_cons, if_neg hr0, roomsMembers,
          List.find?_cons_of_neg _ (by simpa using hp)] at h
        obtain ⟨h1, h2⟩ := ih h
        refine ⟨?_, h2⟩
        rw [roomsMembers, List.find?_cons_of_neg _ (by simpa using hp)]
        exact h1

/-- Helper: the member lists a disconnect's leave-loop produces only
shrink: a socket found in a room after the loop was there before, and
the loop visited no room of that name other than the socket's own id
room. -/
theorem foldlLeave_members (sid : String) (names : List String) (s : ServerState)
    (r : String)
    (h : sid ∈ (names.foldl (fun acc n => if n = sid then acc else leaveRoom acc n sid) s).members r) :
    sid ∈ s.members r ∧ (r ∈ names → r = sid) := by
  induction names generalizing s with
  | nil => exact ⟨h, by simp⟩
  | cons n ns ih =>
    rw [List.foldl_cons] at h
    by_cases hn : n = sid
    · rw [if_pos hn] at h
      obtain ⟨h1, h2⟩ := ih s h
      exact ⟨h1, fun hr => by
        rcases List.mem_cons.1 hr with hr | hr
        · exact hr ▸ hn
        · exact h2 hr⟩
    · rw [if_neg hn] at h
      obtain ⟨h1, h2⟩ := ih (leaveRoom s n sid) h
      obtain ⟨h3, h4⟩ := roomsMembers_leave s.rooms n sid r h1
      exact ⟨h3, fun hr => by
        rcases List.mem_cons.1 hr with hr | hr
        · exact absurd hr h4
        · exact h2 hr⟩

/-- Helper: a room whose first entry contains `sid` appears in the
disconnect handler's derived joined-room list. -/
theorem mem_socketRooms_of_mem (l : List (String × List String)) (sid r : String)
    (h : sid ∈ roomsMembers l r) :
    r ∈ (l.filter (fun p => sid ∈ p.2)).map (·.1) := by
  induction l with
  | nil => simp [roomsMembers] at h
  | cons p ps ih =>
    by_cases hp : p.1 = r
    · have hin : sid ∈ p.2 := by
        rw [roomsMembers, List.find?_cons_of_pos _ (by simpa using hp)] at h
        simpa using h
      rw [List.filter_cons, if_pos (by simpa using hin), List.map_cons]
      exact hp ▸ List.mem_cons_self _ _
    · rw [roomsMembers, List.find?_cons_of_neg _ (by simpa using hp)] at h
      by_cases hkeep : sid ∈ p.2
      · rw [List.filter_cons, if_pos (by simpa using hkeep), List.map_cons]
        exact List.mem_cons_of_mem _ (ih h)
      · rw [List.filter_cons, if_neg (by simpa using hkeep)]
        exact ih h

/-- C5 amended: a full disconnect does remove the connection from every
room's membership set, but performs no call teardown whatsoever: its
only emission is the offline presence broadcast — in particular no
`'call-ended'` reaches the other party of any in-progress call, and no
call state exists to be ended. -/
theorem disconnect_leaves_rooms_no_call_end (ext : Ext) (uid sid : String)
    (now : Nat) (st : ServerState) :
    (∀ r, sid ∉ (dispatch .disconnect ext uid sid now st).state.members r)
    ∧ (dispatch .disconnect ext uid sid now st).effects =
        [.emit .broadcast "user-status" (.userStatusP uid "offline")]
    ∧ emitsNamed (dispatch .disconnect ext uid sid now st).effects "call-ended" = [] := by
  refine ⟨?_, rfl, rfl⟩
  intro r hmem
  simp only [dispatch, handleDisconnect] at hmem
  set st1 : ServerState := { st with
    redisStatus := setA st.redisStatus uid "offline"
    redisLastSeen := setA st.redisLastSeen uid (toString now) } with hst1
  obtain ⟨h1, h2⟩ := roomsMembers_leave _ sid sid r hmem
  obtain ⟨h3, h4⟩ := foldlLeave_members sid _ _ r h1
  exact h2 (h4 (mem_socketRooms_of_mem st1.rooms sid r h3))

/-- C6 counterexample: identity `B` is offline (status `'offline'`, no
connected socket, empty `user:B` room), yet caller `A` receives no
`RecipientUnavailableError` — in fact nothing at all: the call-user
handler dies on `UserService.getUser` (an undeclared identifier)
before any presence check or emission, the exception escapes uncaught,
and no call-session state is created (the state is unchanged). The
same is true for an online, call-enabled callee: the "create
CallSession in ringing, deliver invitation, acknowledge caller" half
of the claim never happens either. -/
theorem callUser_offline_callee_cex :
    let st : ServerState :=
      ⟨[("user:A", ["sA"])], [("A", "online"), ("B", "offline")],
        [("A", "sA")], [], ["sA"], []⟩
    let r := dispatch (.callUser "B" "voice" false) extOk "A" "sA" 1234 st
    let stOnline : ServerState :=
      ⟨[("user:A", ["sA"]), ("user:B", ["sB"])],
        [("A", "online"), ("B", "online")], [("A", "sA"), ("B", "sB")], [],
        ["sA", "sB"], []⟩
    let r2 := dispatch (.callUser "B" "voice" false) extOk "A" "sA" 1234 stOnline
    getA st.redisStatus "B" = some "offline"
    ∧ st.members "user:B" = []
    ∧ r.effects = []
    ∧ r.escaped = true
    ∧ r.state = st
    ∧ getA stOnline.redisStatus "B" = some "online"
    ∧ r2.effects = []
    ∧ r2.escaped = true
    ∧ r2.state = stOnline := by
  refine ⟨?_, ?_, ?_, ?_, ?_, ?_, ?_, ?_, ?_⟩ <;> decide

/-- C6 amended: every call-user event fails with an uncaught
`ReferenceError` (`UserService` is not defined, thrown at the
handler's first await, with no try/catch around it): nothing is
emitted to anyone — no error to the caller, no `'incoming-call'`
invitation, no `'call-initiated'` acknowledgment — no call-session
object is created anywhere, and the server state is unchanged,
whatever the callee's presence or services. -/
theorem callUser_always_crashes (ext : Ext) (calleeId ctype : String)
    (isVideo : Bool) (uid sid : String) (now : Nat) (st : ServerState) :
    dispatch (.callUser calleeId ctype isVideo) ext uid sid now st =
      ⟨st, [], true⟩ := by
  rfl

/-- C8 counterexample: a read-receipt whose `markAsRead` storage call
fails is NOT caught at any dispatch boundary: the exception escapes
the handler uncaught (`escaped = true`) and no error notification of
any kind — to the originating connection or anyone else — is emitted,
contradicting the claim that every per-event failure is converted into
a scoped error notification. -/
theorem readReceipt_failure_escapes_cex :
    let ext := { extOk with markAsRead := .error "storage unreachable" }
    let r := dispatch (.readReceipt "m1" "c1") ext "u1" "s1" 0 emptyState
    r.escaped = true ∧ r.effects = [] := by
  exact ⟨rfl, rfl⟩

/-- C8 amended: only the send-message, request-private-chat,
accept-chat-request and extend-chat handlers wrap their bodies in
try/catch, converting the failure that occurs there — a collaborator
rejection, or the ReferenceError/TypeError from the unresolvable
`UserService` / missing `PaymentService` methods — into a single
`'error'` emission scoped to the originating connection (never
terminating the connection, never reaching another room); the
join-chat, read-receipt and call-user handlers have no catch at all,
so their failures escape the dispatch boundary uncaught, with no
error notification emitted to anyone. -/
theorem dispatch_error_scoping (ext : Ext) (e : String)
    (uid sid chatId messageId : String) (st : ServerState)
    (hchat : ext.getChat = .error e) (hmark : ext.markAsRead = .error e)
    (hupd : ext.updateUserPresence = .error e) :
    handleSendMessage ext uid chatId "x" "text" st =
        ⟨st, [.emit .sender "error" (.errorP e)], false⟩
    ∧ handleRequestPrivateChat st =
        ⟨st, [.emit .sender "error" (.errorP "UserService is not defined")], false⟩
    ∧ handleAcceptChatRequest st =
        ⟨st, [.emit .sender "error"
          (.errorP "PaymentService.acceptPayment is not a function")], false⟩
    ∧ handleExtendChat ext st =
        ⟨st, [.emit .sender "error" (.errorP e)], false⟩
    ∧ (handleReadReceipt ext uid messageId chatId st).escaped = true
    ∧ (handleReadReceipt ext uid messageId chatId st).effects = []
    ∧ (handleJoinChat ext uid sid chatId st).escaped = true
    ∧ (handleJoinChat ext uid sid chatId st).effects = []
    ∧ (handleCallUser st).escaped = true
    ∧ (handleCallUser st).effects = [] := by
  refine ⟨?_, ?_, ?_, ?_, ?_, ?_, ?_, ?_, ?_, ?_⟩ <;>
    simp [handleSendMessage, handleRequestPrivateChat, handleAcceptChatRequest,
      handleExtendChat, handleReadReceipt, handleJoinChat, handleCallUser,
      hchat, hmark, hupd]

/-- Witness for `dispatch_error_scoping` at a concrete failing
environment. -/
theorem dispatch_error_scoping_witness :
    (handleSendMessage
        { extOk with
            getChat := .error "boom", markAsRead := .error "boom",
            updateUserPresence := .error "boom" }
        "u1" "c1" "x" "text" emptyState =
      ⟨emptyState, [.emit .sender "error" (.errorP "boom")], false⟩)
    ∧ (handleReadReceipt
        { extOk with
            getChat := .error "boom", markAsRead := .error "boom",
            updateUserPresence := .error "boom" }
        "u1" "m1" "c1" emptyState).escaped = true := by
  have h := dispatch_error_scoping
    { extOk with
        getChat := .error "boom", markAsRead := .error "boom",
        updateUserPresence := .error "boom" }
    "boom" "u1" "s1" "c1" "m1" emptyState rfl rfl rfl
  exact ⟨h.1, h.2.2.2.2.1⟩

/-- Helper: no inbound event ever removes a pending expiry timer —
dispatch can only leave the `setTimeout` queue alone or append to it.
(There is no `clearTimeout` anywhere in the handler, and no handle
registry to find a timer in.) -/
theorem dispatch_timers_append (ev : InboundEvent) (ext : Ext) (uid sid : String)
    (now : Nat) (st : ServerState) :
    ∃ l, (dispatch ev ext uid sid now st).state.scheduledTimers =
      st.scheduledTimers ++ l := by
  cases ev with
  | joinChat c =>
    refine ⟨[], ?_⟩
    unfold dispatch handleJoinChat
    rcases ext.updateUserPresence with e | u <;> simp [joinRoom]
  | sendMessage c x t =>
    refine ⟨[], ?_⟩
    unfold dispatch handleSendMessage
    rcases ext.getChat with e | chat
    · simp
    · dsimp only
      rcases hsave : ext.saveMessage with e | mId <;>
        rcases hcheck : ext.checkChatTimeRemaining with e2 | ht <;>
          by_cases hp : chat.ctype = "private_paid" <;>
            simp [hsave, hcheck, hp] <;> cases ht <;> simp
  | typing c b => exact ⟨[], by simp [dispatch, handleTyping]⟩
  | readReceipt mid c =>
    refine ⟨[], ?_⟩
    unfold dispatch handleReadReceipt
    rcases ext.markAsRead with e | u <;> simp
  | requestPrivateChat eid d =>
    exact ⟨[], by simp [dispatch, handleRequestPrivateChat]⟩
  | acceptChatRequest rid =>
    exact ⟨[], by simp [dispatch, handleAcceptChatRequest]⟩
  | extendChat c m =>
    refine ⟨[], ?_⟩
    unfold dispatch handleExtendChat
    rcases ext.getChat with e | chat <;> simp
  | callUser cid t v =>
    exact ⟨[], by simp [dispatch, handleCallUser]⟩
  | acceptCall c => exact ⟨[], by simp [dispatch, handleAcceptCall]⟩
  | rejectCall c => exact ⟨[], by simp [dispatch, handleRejectCall]⟩
  | joinCall c => exact ⟨[], by simp [dispatch, handleJoinCall, joinRoom]⟩
  | callSignal c => exact ⟨[], by simp [dispatch, handleCallSignal]⟩
  | endCall c => exact ⟨[], by simp [dispatch, handleEndCall]⟩
  | updatePresence s cs => exact ⟨[], by simp [dispatch, handleUpdatePresence]⟩
  | disconnect =>
    refine ⟨[], ?_⟩
    simp only [dispatch, handleDisconnect]
    obtain ⟨rs, hrs⟩ := foldlLeave_eq sid
      ((({ st with
            redisStatus := setA st.redisStatus uid "offline"
            redisLastSeen := setA st.redisLastSeen uid (toString now) } :
          ServerState).rooms.filter (fun p => sid ∈ p.2)).map (·.1))
      { st with
          redisStatus := setA st.redisStatus uid "offline"
          redisLastSeen := setA st.redisLastSeen uid (toString now) }
    rw [hrs]
    simp [leaveRoom]
  | other n => exact ⟨[], by simp [dispatch]⟩

/-- C9 counterexample: a concrete accept-chat-request never reaches
the timer-start step the claim narrates. The handler's first await,
`PaymentService.acceptPayment`, does not exist, so the error event the
accepting connection receives is the caught TypeError — not the
`chatTimers` ReferenceError the claim attributes it to — and no expiry
timer whatsoever is scheduled (there is no "scheduled expiry timer"
left uncancellable, contrary to the claim's conclusion): the
timer-start step, and the schedule-then-ReferenceError sequence, are
unreachable. -/
theorem acceptChat_no_timer_cex :
    let r := dispatch (.acceptChatRequest "r9") extOk "u9" "s9" 7 emptyState
    r.effects = [.emit .sender "error"
        (.errorP "PaymentService.acceptPayment is not a function")]
    ∧ r.effects ≠ [.emit .sender "error" (.errorP "chatTimers is not defined")]
    ∧ r.state.scheduledTimers = []
    ∧ emitsNamed r.effects "chat-started" = [] := by
  refine ⟨?_, ?_, ?_, ?_⟩ <;> decide

/-- C9 amended: no accept-chat-request ever reaches the timer-start
step: every one fails at its first await (`PaymentService` defines no
`acceptPayment`), whose TypeError the handler's catch emits as an
`'error'` event to the accepting connection, scheduling nothing.
`startChatTimer` itself — dead code — would indeed schedule the
expiry `setTimeout` and then throw the `ReferenceError` (`chatTimers`
is not defined anywhere in the module) without storing any handle;
and since no handle registry exists, no inbound event can ever remove
a pending timer. -/
theorem acceptChat_timer_unreachable :
    (∀ (requestId uid sid : String) (ext : Ext) (now : Nat) (st : ServerState),
      dispatch (.acceptChatRequest requestId) ext uid sid now st =
        ⟨st, [.emit .sender "error"
            (.errorP "PaymentService.acceptPayment is not a function")], false⟩)
    ∧ (∀ (chatId : String) (d : Nat) (st : ServerState),
        startChatTimer chatId d st =
          ({ st with scheduledTimers :=
              st.scheduledTimers ++ [(chatId, d * 60 * 1000)] },
            .error "chatTimers is not defined"))
    ∧ (∀ ev ext uid sid now st, ∃ l,
        (dispatch ev ext uid sid now st).state.scheduledTimers =
          st.scheduledTimers ++ l) := by
  refine ⟨fun _ _ _ _ _ _ => rfl, fun _ _ _ => rfl, ?_⟩
  exact fun ev ext uid sid now st => dispatch_timers_append ev ext uid sid now st

/-- Helper: no inbound socket event ever emits `'chat-time-ended'` —
the scheduled expiry callback is its only source. -/
theorem dispatch_no_chatTimeEnded (ev : InboundEvent) (ext : Ext) (uid sid : String)
    (now : Nat) (st : ServerState) :
    emitsNamed (dispatch ev ext uid sid now st).effects "chat-time-ended" = [] := by
  cases ev with
  | joinChat c =>
    unfold dispatch handleJoinChat
    rcases ext.updateUserPresence with e | u <;> simp [emitsNamed]
  | sendMessage c x t =>
    unfold dispatch handleSendMessage
    rcases ext.getChat with e | chat
    · simp [emitsNamed]
    · dsimp only
      rcases hsave : ext.saveMessage with e | mId <;>
        rcases hcheck : ext.checkChatTimeRemaining with e2 | ht <;>
          by_cases hp : chat.ctype = "private_paid"
      all_goals try cases ht
      all_goals simp [hsave, hcheck, hp, emitsNamed]
      all_goals intro a q hq hne heq
      all_goals subst heq
      all_goals rfl
  | typing c b => simp [dispatch, handleTyping, emitsNamed]
  | readReceipt mid c =>
    unfold dispatch handleReadReceipt
    rcases ext.markAsRead with e | u <;> simp [emitsNamed]
  | requestPrivateChat eid d => simp [dispatch, handleRequestPrivateChat, emitsNamed]
  | acceptChatRequest rid => simp [dispatch, handleAcceptChatRequest, emitsNamed]
  | extendChat c m =>
    unfold dispatch handleExtendChat
    rcases ext.getChat with e | chat <;> simp [emitsNamed]
  | callUser cid t v => simp [dispatch, handleCallUser, emitsNamed]
  | acceptCall c => simp [dispatch, handleAcceptCall, emitsNamed]
  | rejectCall c => simp [dispatch, handleRejectCall, emitsNamed]
  | joinCall c => simp [dispatch, handleJoinCall, emitsNamed]
  | callSignal c => simp [dispatch, handleCallSignal, emitsNamed]
  | endCall c => simp [dispatch, handleEndCall, emitsNamed]
  | updatePresence s cs => simp [dispatch, handleUpdatePresence, emitsNamed]
  | disconnect => simp [dispatch, handleDisconnect, emitsNamed]
  | other n => simp [dispatch, emitsNamed]

/-- C3 (code bug): the billing expiry event can never fire because no
billing session is ever activated. The intended pipeline is visible in
the source — accept-chat-request is supposed to confirm the payment,
create the chat, emit `'chat-started'` and call `startChatTimer`,
whose callback emits `'chat-time-ended'` exactly once — but the very
first await, `PaymentService.acceptPayment`, is a method the
`PaymentService` class does not define, so every accept-chat-request
(here the concrete failing input `requestId = "r1"`) ends in the catch
with only an error emitted to the accepting socket. No timer is ever
scheduled, and no inbound socket event can ever emit
`'chat-time-ended'`: the expiry event occurs zero times, not exactly
once. -/
theorem chat_expiry_never_fires :
    dispatch (.acceptChatRequest "r1") extOk "u1" "s1" 0 emptyState =
      ⟨emptyState, [.emit .sender "error"
          (.errorP "PaymentService.acceptPayment is not a function")], false⟩
    ∧ (dispatch (.acceptChatRequest "r1") extOk "u1" "s1" 0
        emptyState).state.scheduledTimers = []
    ∧ (∀ ev ext uid sid now st,
        emitsNamed (dispatch ev ext uid sid now st).effects "chat-time-ended" = []) := by
  refine ⟨rfl, rfl, ?_⟩
  exact fun ev ext uid sid now st =>
    dispatch_no_chatTimeEnded ev ext uid sid now st

/-- C10: the connection handler never subscribes to `'leave-chat'`,
the very event the ChatInterface cleanup emits when a chat view
closes; dispatching it leaves the server state untouched and emits
nothing, so a connection that had joined a chat room is still a member
afterwards, a subsequent send-message still broadcasts
`'new-message'` to that room, and that broadcast's recipients still
include the lingering connection — it keeps receiving the room's
messages until it disconnects. -/
theorem leaveChat_unhandled (ext : Ext) (uid sid uid2 sid2 chatId content mtype : String)
    (now : Nat) (st : ServerState) (chat : Chat) (mId : String)
    (hmem : sid ∈ st.members ("chat:" ++ chatId))
    (hchat : ext.getChat = .ok chat) (hfree : chat.ctype ≠ "private_paid")
    (hsave : ext.saveMessage = .ok mId) :
    chatInterfaceCleanupEvent ∉ registeredEvents
    ∧ (InboundEvent.other chatInterfaceCleanupEvent).name = chatInterfaceCleanupEvent
    ∧ dispatch (.other chatInterfaceCleanupEvent) ext uid sid now st = ⟨st, [], false⟩
    ∧ sid ∈ (dispatch (.other chatInterfaceCleanupEvent) ext uid sid now
        st).state.members ("chat:" ++ chatId)
    ∧ Effect.emit (.room ("chat:" ++ chatId)) "new-message"
          (.messageP ⟨mId, chatId, uid2, content, mtype⟩) ∈
        (handleSendMessage ext uid2 chatId content mtype
          (dispatch (.other chatInterfaceCleanupEvent) ext uid sid now st).state).effects
    ∧ sid ∈ emitRecipients
        (dispatch (.other chatInterfaceCleanupEvent) ext uid sid now st).state
        sid2 (.room ("chat:" ++ chatId)) := by
  refine ⟨by decide, rfl, rfl, hmem, ?_, hmem⟩
  simp [handleSendMessage, hchat, hfree, hsave]

/-- Witness for `leaveChat_unhandled`: socket `s1` joined `chat:c1`,
emits `leave-chat`, stays a member, and still receives the next
message's room broadcast. -/
theorem leaveChat_unhandled_witness :
    ("leave-chat" ∉ registeredEvents)
    ∧ dispatch (.other "leave-chat") extOk "u1" "s1" 0
        ⟨[("chat:c1", ["s1", "s2"])], [], [], [], ["s1", "s2"], []⟩ =
      ⟨⟨[("chat:c1", ["s1", "s2"])], [], [], [], ["s1", "s2"], []⟩, [], false⟩
    ∧ "s1" ∈ emitRecipients
        ⟨[("chat:c1", ["s1", "s2"])], [], [], [], ["s1", "s2"], []⟩
        "s2" (.room ("chat:" ++ "c1")) := by
  have h := leaveChat_unhandled extOk "u1" "s1" "u2" "s2" "c1" "hello" "text" 0
    ⟨[("chat:c1", ["s1", "s2"])], [], [], [], ["s1", "s2"], []⟩
    ⟨"c1", "free", [⟨"u1", "user"⟩, ⟨"u2", "earner"⟩], 10, false⟩ "m1"
    (by decide) rfl (by decide) rfl
  exact ⟨h.1, h.2.2.1, h.2.2.2.2.2⟩

end Quikchat
